import Mathlib

/-!
Shallow embedding of `influxdb.go` from go-metrics-influxdb: a background
reporter that periodically snapshots a metrics registry and writes the
values to InfluxDB.

Modelling decisions:
* Go `int64` values are modelled as `Int` (no arithmetic here can overflow:
  the only integer operation performed is division by 1,000,000).
  Go integer division `/` truncates toward zero, which is `Int.tdiv`.
* Go `float64` values are modelled as `ℚ`; the only float operation
  performed is division by the constant 1,000,000.
* `time.Now()` is modelled by an external clock `clock : Nat → Nat`:
  the k-th call to `Now` during an emission cycle returns `clock k`.
  The code calls `Now` once per registry entry, inside the `Each` closure
  (influxdb.go line 102), so the clock argument is shifted by one position
  for each entry processed.
* External collaborators (hostname resolution, URL parsing, client
  construction, the client's `Write` and `Ping`) are passed in as function
  or result parameters, since their behaviour is outside this repository.
-/

/-- A field value in a write point: Go `interface{}` holding either an
`int64` or a `float64` (influxdb.go fields maps). -/
inductive FieldValue where
  | i (v : Int)
  | f (v : ℚ)
deriving DecidableEq

/-- `client.Point`: measurement name, field map (modelled as an association
list in the literal order of the Go map literal), and timestamp. -/
structure Point where
  measurement : String
  fields : List (String × FieldValue)
  time : Nat
deriving DecidableEq

/-- `client.BatchPoints`: the points plus the target database name
(influxdb.go lines 191-194). -/
structure BatchPoints where
  points : List Point
  database : String
deriving DecidableEq

/-- Data read from a `metrics.Histogram` instrument: `Count`, `Max`,
`Mean`, `Min`, `StdDev`, `Variance` and the `Percentiles` query, modelled
pointwise as a function from quantile fraction to value. -/
structure HistogramData where
  count : Int
  max : Int
  min : Int
  mean : ℚ
  stddev : ℚ
  variance : ℚ
  percentile : ℚ → ℚ

/-- Data read from a `metrics.Meter` instrument: `Count`, `Rate1`,
`Rate5`, `Rate15`, `RateMean`. -/
structure MeterData where
  count : Int
  rate1 : ℚ
  rate5 : ℚ
  rate15 : ℚ
  rateMean : ℚ

/-- Data read from a `metrics.Timer` instrument: histogram-like duration
statistics (in nanoseconds) plus meter-like rates. -/
structure TimerData where
  count : Int
  max : Int
  min : Int
  mean : ℚ
  stddev : ℚ
  variance : ℚ
  percentile : ℚ → ℚ
  rate1 : ℚ
  rate5 : ℚ
  rate15 : ℚ
  rateMean : ℚ

/-- A metric instrument, one case per arm of the type switch in
influxdb.go lines 107-188; `unknown` stands for any value of a type
matched by none of the six cases. -/
inductive Metric where
  | counter (count : Int)
  | gauge (value : Int)
  | gaugeFloat (value : ℚ)
  | histogram (h : HistogramData)
  | meter (m : MeterData)
  | timer (t : TimerData)
  | unknown

/-- A registry snapshot: what `reg.Each` iterates, as a list of
(name, instrument) pairs in iteration order. -/
abbrev Registry : Type := List (String × Metric)

/-- `time.Millisecond.Nanoseconds()` = 1,000,000. -/
def msNanoseconds : Int := 1000000

/-- The quantile fractions passed to `Percentiles` by both the Histogram
and Timer arms (influxdb.go lines 133 and 165). -/
def quantiles : List ℚ := [0.5, 0.75, 0.95, 0.99, 0.999, 0.9999]

/-- Fields of a Counter point (influxdb.go lines 111-113). -/
def counterFields (c : Int) : List (String × FieldValue) :=
  [("value", .i c)]

/-- Fields of a Gauge point (influxdb.go lines 119-121). -/
def gaugeFields (v : Int) : List (String × FieldValue) :=
  [("value", .i v)]

/-- Fields of a GaugeFloat64 point (influxdb.go lines 127-129). -/
def gaugeFloatFields (v : ℚ) : List (String × FieldValue) :=
  [("value", .f v)]

/-- Fields of a Histogram point (influxdb.go lines 136-149); `ps` is the
result of `m.Percentiles(quantiles)`. -/
def histogramFields (h : HistogramData) : List (String × FieldValue) :=
  let ps := quantiles.map h.percentile
  [("count", .i h.count),
   ("max", .i h.max),
   ("mean", .f h.mean),
   ("min", .i h.min),
   ("stddev", .f h.stddev),
   ("variance", .f h.variance),
   ("p50", .f (ps.getD 0 0)),
   ("p75", .f (ps.getD 1 0)),
   ("p95", .f (ps.getD 2 0)),
   ("p99", .f (ps.getD 3 0)),
   ("p999", .f (ps.getD 4 0)),
   ("p9999", .f (ps.getD 5 0))]

/-- Fields of a Meter point (influxdb.go lines 155-161). -/
def meterFields (m : MeterData) : List (String × FieldValue) :=
  [("count", .i m.count),
   ("m1", .f m.rate1),
   ("m5", .f m.rate5),
   ("m15", .f m.rate15),
   ("mean", .f m.rateMean)]

/-- Fields of a Timer point (influxdb.go lines 168-185): duration
statistics divided by `time.Millisecond.Nanoseconds()` — integer division
for the `int64` fields `max` and `min`, float division for the rest —
and rates passed through unchanged. -/
def timerFields (t : TimerData) : List (String × FieldValue) :=
  let ps := quantiles.map t.percentile
  [("count", .i t.count),
   ("max", .i (Int.tdiv t.max msNanoseconds)),
   ("mean", .f (t.mean / (msNanoseconds : ℚ))),
   ("min", .i (Int.tdiv t.min msNanoseconds)),
   ("stddev", .f (t.stddev / (msNanoseconds : ℚ))),
   ("variance", .f (t.variance / (msNanoseconds : ℚ))),
   ("p50", .f (ps.getD 0 0 / (msNanoseconds : ℚ))),
   ("p75", .f (ps.getD 1 0 / (msNanoseconds : ℚ))),
   ("p95", .f (ps.getD 2 0 / (msNanoseconds : ℚ))),
   ("p99", .f (ps.getD 3 0 / (msNanoseconds : ℚ))),
   ("p999", .f (ps.getD 4 0 / (msNanoseconds : ℚ))),
   ("p9999", .f (ps.getD 5 0 / (msNanoseconds : ℚ))),
   ("m1", .f t.rate1),
   ("m5", .f t.rate5),
   ("m15", .f t.rate15),
   ("meanrate", .f t.rateMean)]

/-- One arm of the type switch (influxdb.go lines 107-188): the points
appended to `pts` for a single registry entry whose prefixed name is
`name`, read at time `now`. Recognized kinds yield one point; any other
kind falls out of the switch and yields none. -/
def pointsForEntry (name : String) (now : Nat) : Metric → List Point
  | .counter c => [⟨name ++ ".count", counterFields c, now⟩]
  | .gauge v => [⟨name ++ ".gauge", gaugeFields v, now⟩]
  | .gaugeFloat v => [⟨name ++ ".gauge", gaugeFloatFields v, now⟩]
  | .histogram h => [⟨name ++ ".histogram", histogramFields h, now⟩]
  | .meter m => [⟨name ++ ".meter", meterFields m, now⟩]
  | .timer t => [⟨name ++ ".timer", timerFields t, now⟩]
  | .unknown => []

/-- The `reg.Each` loop of `send` (influxdb.go lines 101-189): for each
entry, `now := time.Now()` is called (consuming one clock position, even
for unrecognized kinds), the name is prefixed with `host`, and the switch
appends the entry's points. -/
def translateReg (host : String) (clock : Nat → Nat) : Registry → List Point
  | [] => []
  | (name, m) :: rest =>
      pointsForEntry (host ++ name) (clock 0) m ++
        translateReg host (fun j => clock (j + 1)) rest

/-- Whether a metric kind matches one of the six switch arms and so
produces a point. -/
def emits : Metric → Bool
  | .unknown => false
  | _ => true

/-- The outcome of one call to `send` (influxdb.go lines 87-198): either
an early return with the hostname-resolution error (no batch built, no
write submitted), or exactly one `client.Write(bps)` call with batch
`b`, whose error result (`none` for nil) is returned. -/
inductive SendResult where
  | hostErr (e : String)
  | wrote (b : BatchPoints) (res : Option String)
deriving DecidableEq

/-- `send` (influxdb.go lines 87-198). `hostname` is the result of
`os.Hostname()` (consulted only when `tagHost` is set), `write` is the
client's `Write` operation. -/
def send (tagHost : Bool) (hostname : Except String String)
    (database : String) (clock : Nat → Nat) (reg : Registry)
    (write : BatchPoints → Option String) : SendResult :=
  match tagHost, hostname with
  | true, .error e => .hostErr e
  | true, .ok h =>
      let bps : BatchPoints := ⟨translateReg (h ++ ".") clock reg, database⟩
      .wrote bps (write bps)
  | false, _ =>
      let bps : BatchPoints := ⟨translateReg "" clock reg, database⟩
      .wrote bps (write bps)

example :
    translateReg "" (fun k => k) [("a", .counter 3), ("b", .unknown), ("c", .gauge 5)] =
      [⟨"a.count", [("value", .i 3)], 0⟩, ⟨"c.gauge", [("value", .i 5)], 2⟩] := by
  decide

/-- A parsed URL (`net/url.URL`), kept opaque: only its identity matters
to the reporter. -/
structure URL where
  raw : String
deriving DecidableEq

/-- `client.Config` as filled in by `makeClient` (influxdb.go lines
55-59): URL, username, password. -/
structure ClientConfig where
  url : URL
  username : String
  password : String
deriving DecidableEq

/-- An external client handle (`*client.Client`), opaque to the
reporter. -/
structure Client where
  id : Nat
deriving DecidableEq

/-- The configuration fields of the `reporter` struct (influxdb.go lines
15-27) that the loop reads; the mutable `client` field is threaded
separately (`none` models a nil handle after a failed `NewClient`). -/
structure ReporterCfg where
  tagHost : Bool
  url : URL
  database : String
  username : String
  password : String
deriving DecidableEq

/-- The outcome of the `InfluxDB` entry point (influxdb.go lines 30-52):
parse failure (logged, return), client-construction failure (logged,
return), or entry into `rep.run()` with the built reporter. -/
inductive StartResult where
  | urlError (e : String)
  | clientError (e : String)
  | running (cfg : ReporterCfg) (cl : Client)
deriving DecidableEq

/-- `InfluxDB` (influxdb.go lines 30-52). `urlParse` is `net/url.Parse`
and `newClient` is `client.NewClient`, both external. -/
def InfluxDB (urlParse : String → Except String URL)
    (newClient : ClientConfig → Except String Client)
    (url database username password : String) (tagHost : Bool) :
    StartResult :=
  match urlParse url with
  | .error e => .urlError e
  | .ok u =>
      match newClient ⟨u, username, password⟩ with
      | .error e => .clientError e
      | .ok c => .running ⟨tagHost, u, database, username, password⟩ c

/-- One wake-up of the `select` loop in `run` (influxdb.go lines 68-84):
either the interval ticker fired (with that cycle's external inputs for
`send`), or the ping ticker fired (with the ping outcome and the
behaviour of `client.NewClient` for a possible rebuild). -/
inductive Event where
  | intervalTick (hostname : Except String String) (clock : Nat → Nat)
      (reg : Registry) (write : BatchPoints → Option String)
  | pingTick (pingOk : Bool)
      (newClient : ClientConfig → Except String Client)

/-- What one loop iteration did: emitted (recording `send`'s result),
ping succeeded (nothing done), or ping failed and `makeClient` was rerun
with the stored configuration, succeeding or failing. -/
inductive LoopAction where
  | emitted (r : SendResult)
  | pingFine
  | rebuiltOk (cc : ClientConfig) (c : Client)
  | rebuiltErr (cc : ClientConfig) (e : String)
deriving DecidableEq

/-- One iteration of the `for`/`select` loop in `run` (influxdb.go lines
68-84): returns the new client handle and the action taken. On a failed
ping, `makeClient` is called with the stored URL/username/password; on
its failure `r.client` is left nil and the loop moves on. -/
def runStep (cfg : ReporterCfg) (cl : Option Client) :
    Event → Option Client × LoopAction
  | .intervalTick hostname clock reg write =>
      (cl, .emitted (send cfg.tagHost hostname cfg.database clock reg write))
  | .pingTick pingOk newClient =>
      if pingOk then (cl, .pingFine)
      else
        let cc : ClientConfig := ⟨cfg.url, cfg.username, cfg.password⟩
        match newClient cc with
        | .ok c => (some c, .rebuiltOk cc c)
        | .error e => (none, .rebuiltErr cc e)

/-- The `run` loop (influxdb.go lines 64-85) over a finite prefix of its
(infinite) event stream: every event is handled, no error terminates the
loop. -/
def runLoop (cfg : ReporterCfg) : Option Client → List Event →
    Option Client × List LoopAction
  | cl, [] => (cl, [])
  | cl, e :: rest =>
      let s := runStep cfg cl e
      let r := runLoop cfg s.1 rest
      (r.1, s.2 :: r.2)

/-- Concrete Timer instrument of the spec's end-to-end scenario:
count=10, max=5,000,000ns, min=1,000,000ns, mean=2,500,000ns, m1=0.5
(remaining statistics set to 0). -/
def latencyTimer : TimerData :=
  ⟨10, 5000000, 1000000, 2500000, 0, 0, fun _ => 0, 0.5, 0, 0, 0⟩

/-- Concrete Timer instrument with sub-millisecond max (999,999ns) and
min (123ns), used to exhibit truncation to 0. -/
def subMsTimer : TimerData :=
  ⟨7, 999999, 123, 55, 0, 0, fun _ => 0, 0, 0, 0, 0⟩

/-- A snapshot with five recognized instruments and one unrecognized
one. -/
def regMixed : Registry :=
  [("a", Metric.counter 1), ("b", Metric.gauge 2),
   ("c", Metric.gaugeFloat 3), ("d", Metric.meter ⟨4, 1, 1, 1, 1⟩),
   ("e", Metric.timer ⟨5, 0, 0, 0, 0, 0, fun _ => 0, 0, 0, 0, 0⟩),
   ("f", Metric.unknown)]

/-- A snapshot with two counters, used to exhibit per-metric
timestamps. -/
def regPair : Registry := [("a", Metric.counter 0), ("b", Metric.counter 0)]

/-! ## Helper lemmas -/

theorem pointsForEntry_host (pre name : String) (now : Nat) (m : Metric) :
    pointsForEntry (pre ++ name) now m =
      (pointsForEntry name now m).map
        (fun p => ⟨pre ++ p.measurement, p.fields, p.time⟩) := by
  cases m <;> simp [pointsForEntry, String.append_assoc]

theorem translateReg_host (pre : String) (clock : Nat → Nat)
    (reg : Registry) :
    translateReg pre clock reg =
      (translateReg "" clock reg).map
        (fun p => ⟨pre ++ p.measurement, p.fields, p.time⟩) := by
  induction reg generalizing clock with
  | nil => rfl
  | cons e rest ih =>
      obtain ⟨name, m⟩ := e
      simp [translateReg, ih, pointsForEntry_host, String.empty_append]

theorem pointsForEntry_times (name : String) (now : Nat) (m : Metric) :
    (pointsForEntry name now m).map Point.time =
      if emits m then [now] else [] := by
  cases m <;> rfl

theorem runLoop_length (cfg : ReporterCfg) (cl : Option Client)
    (evs : List Event) :
    ((runLoop cfg cl evs).2).length = evs.length := by
  induction evs generalizing cl with
  | nil => rfl
  | cons e rest ih => simp [runLoop, ih]

/-! ## Claims -/

/-- Claim C3: translating a snapshot containing one instrument of each
kind yields exactly one Write Point whose measurement name carries the
kind's fixed suffix (`.count`, `.gauge`, `.gauge`, `.histogram`,
`.meter`, `.timer`) and whose field-key list matches the table exactly;
in particular one Counter "requests" = 42 with tagHost disabled yields
one point with measurement "requests.count" and the single field
value = 42. -/
theorem claim_C3_point_shapes :
    (∀ (name : String) (clock : Nat → Nat) (c : Int),
        translateReg "" clock [(name, Metric.counter c)] =
          [⟨name ++ ".count", [("value", FieldValue.i c)], clock 0⟩] ∧
        (counterFields c).map Prod.fst = ["value"]) ∧
    (∀ (name : String) (clock : Nat → Nat) (v : Int),
        translateReg "" clock [(name, Metric.gauge v)] =
          [⟨name ++ ".gauge", [("value", FieldValue.i v)], clock 0⟩] ∧
        (gaugeFields v).map Prod.fst = ["value"]) ∧
    (∀ (name : String) (clock : Nat → Nat) (v : ℚ),
        translateReg "" clock [(name, Metric.gaugeFloat v)] =
          [⟨name ++ ".gauge", [("value", FieldValue.f v)], clock 0⟩] ∧
        (gaugeFloatFields v).map Prod.fst = ["value"]) ∧
    (∀ (name : String) (clock : Nat → Nat) (h : HistogramData),
        translateReg "" clock [(name, Metric.histogram h)] =
          [⟨name ++ ".histogram", histogramFields h, clock 0⟩] ∧
        (histogramFields h).map Prod.fst =
          ["count", "max", "mean", "min", "stddev", "variance",
           "p50", "p75", "p95", "p99", "p999", "p9999"]) ∧
    (∀ (name : String) (clock : Nat → Nat) (m : MeterData),
        translateReg "" clock [(name, Metric.meter m)] =
          [⟨name ++ ".meter", meterFields m, clock 0⟩] ∧
        (meterFields m).map Prod.fst = ["count", "m1", "m5", "m15", "mean"]) ∧
    (∀ (name : String) (clock : Nat → Nat) (t : TimerData),
        translateReg "" clock [(name, Metric.timer t)] =
          [⟨name ++ ".timer", timerFields t, clock 0⟩] ∧
        (timerFields t).map Prod.fst =
          ["count", "max", "mean", "min", "stddev", "variance",
           "p50", "p75", "p95", "p99", "p999", "p9999",
           "m1", "m5", "m15", "meanrate"]) ∧
    (∀ (clock : Nat → Nat) (hn : Except String String)
        (w : BatchPoints → Option String),
      send false hn "db" clock [("requests", Metric.counter 42)] w =
        .wrote ⟨[⟨"requests.count", [("value", FieldValue.i 42)], clock 0⟩], "db"⟩
          (w ⟨[⟨"requests.count", [("value", FieldValue.i 42)], clock 0⟩], "db"⟩)) :=
  ⟨fun _ _ _ => ⟨rfl, rfl⟩, fun _ _ _ => ⟨rfl, rfl⟩, fun _ _ _ => ⟨rfl, rfl⟩,
   fun _ _ _ => ⟨rfl, rfl⟩, fun _ _ _ => ⟨rfl, rfl⟩, fun _ _ _ => ⟨rfl, rfl⟩,
   fun _ _ _ => rfl⟩

/-- Claim C2: in a Timer point every duration field (count excluded) is
the source nanosecond value divided by 1,000,000 — integer division for
the `int64` fields `max` and `min`, float division for the float fields —
while `m1`, `m5`, `m15`, `meanrate` are passed through unconverted; the
spec's Timer "latency" scenario yields min=1, max=5, mean=2.5, m1=0.5. -/
theorem claim_C2_timer_ms_conversion :
    (∀ t : TimerData,
      (timerFields t).lookup "count" = some (.i t.count) ∧
      (timerFields t).lookup "max" = some (.i (Int.tdiv t.max 1000000)) ∧
      (timerFields t).lookup "mean" = some (.f (t.mean / 1000000)) ∧
      (timerFields t).lookup "min" = some (.i (Int.tdiv t.min 1000000)) ∧
      (timerFields t).lookup "stddev" = some (.f (t.stddev / 1000000)) ∧
      (timerFields t).lookup "variance" = some (.f (t.variance / 1000000)) ∧
      (timerFields t).lookup "p50" = some (.f (t.percentile 0.5 / 1000000)) ∧
      (timerFields t).lookup "p75" = some (.f (t.percentile 0.75 / 1000000)) ∧
      (timerFields t).lookup "p95" = some (.f (t.percentile 0.95 / 1000000)) ∧
      (timerFields t).lookup "p99" = some (.f (t.percentile 0.99 / 1000000)) ∧
      (timerFields t).lookup "p999" = some (.f (t.percentile 0.999 / 1000000)) ∧
      (timerFields t).lookup "p9999" = some (.f (t.percentile 0.9999 / 1000000)) ∧
      (timerFields t).lookup "m1" = some (.f t.rate1) ∧
      (timerFields t).lookup "m5" = some (.f t.rate5) ∧
      (timerFields t).lookup "m15" = some (.f t.rate15) ∧
      (timerFields t).lookup "meanrate" = some (.f t.rateMean)) ∧
    (send false (.ok "h") "db" (fun _ => 7)
        [("latency", Metric.timer latencyTimer)] (fun _ => none) =
      .wrote ⟨[⟨"latency.timer", timerFields latencyTimer, 7⟩], "db"⟩ none) ∧
    (timerFields latencyTimer).lookup "min" = some (.i 1) ∧
    (timerFields latencyTimer).lookup "max" = some (.i 5) ∧
    (timerFields latencyTimer).lookup "mean" = some (.f 2.5) ∧
    (timerFields latencyTimer).lookup "count" = some (.i 10) ∧
    (timerFields latencyTimer).lookup "m1" = some (.f 0.5) :=
  ⟨fun t => ⟨rfl, rfl, rfl, rfl, rfl, rfl, rfl, rfl, rfl, rfl, rfl, rfl,
     rfl, rfl, rfl, rfl⟩,
   rfl, by decide, by decide,
   by
     rw [show (timerFields latencyTimer).lookup "mean" =
         some (.f (latencyTimer.mean / 1000000)) from rfl]
     norm_num [latencyTimer],
   rfl, rfl⟩

/-- Claim C9: the Timer `max` and `min` fields are computed with integer
division by 1,000,000 truncating toward zero — a nonnegative duration
strictly below 1,000,000ns yields 0, and in general the quotient times
1,000,000 brackets the source value — whereas `mean` and the percentile
fields use exact division on the float model and lose nothing. -/
theorem claim_C9_timer_truncation (t : TimerData) :
    ((timerFields t).lookup "max" = some (.i (Int.tdiv t.max 1000000))) ∧
    ((timerFields t).lookup "min" = some (.i (Int.tdiv t.min 1000000))) ∧
    (0 ≤ t.max → t.max < 1000000 →
      (timerFields t).lookup "max" = some (.i 0)) ∧
    (0 ≤ t.min → t.min < 1000000 →
      (timerFields t).lookup "min" = some (.i 0)) ∧
    (0 ≤ t.max → Int.tdiv t.max 1000000 * 1000000 ≤ t.max ∧
      t.max < (Int.tdiv t.max 1000000 + 1) * 1000000) ∧
    ((timerFields t).lookup "mean" = some (.f (t.mean / 1000000))) ∧
    ((t.mean / 1000000) * (1000000 : ℚ) = t.mean) ∧
    ((timerFields t).lookup "p50" = some (.f (t.percentile 0.5 / 1000000))) ∧
    ((t.percentile 0.5 / 1000000) * (1000000 : ℚ) = t.percentile 0.5) := by
  refine ⟨rfl, rfl, ?_, ?_, ?_, rfl, ?_, rfl, ?_⟩
  · intro h1 h2
    rw [show (timerFields t).lookup "max" =
        some (.i (Int.tdiv t.max 1000000)) from rfl,
      Int.tdiv_eq_zero_of_lt h1 h2]
  · intro h1 h2
    rw [show (timerFields t).lookup "min" =
        some (.i (Int.tdiv t.min 1000000)) from rfl,
      Int.tdiv_eq_zero_of_lt h1 h2]
  · intro h1
    rw [Int.tdiv_eq_ediv h1 (by norm_num)]
    omega
  · exact div_mul_cancel₀ _ (by norm_num)
  · exact div_mul_cancel₀ _ (by norm_num)

/-- Witness for claim C9 at the concrete Timer `subMsTimer`
(max = 999,999ns, min = 123ns): both truncate to 0, and the bracketing
inequalities hold. -/
theorem claim_C9_witness :
    0 ≤ subMsTimer.max ∧ subMsTimer.max < 1000000 ∧
    0 ≤ subMsTimer.min ∧ subMsTimer.min < 1000000 ∧
    (timerFields subMsTimer).lookup "max" = some (.i 0) ∧
    (timerFields subMsTimer).lookup "min" = some (.i 0) ∧
    (Int.tdiv subMsTimer.max 1000000 * 1000000 ≤ subMsTimer.max ∧
      subMsTimer.max < (Int.tdiv subMsTimer.max 1000000 + 1) * 1000000) :=
  ⟨by decide, by decide, by decide, by decide,
   (claim_C9_timer_truncation subMsTimer).2.2.1 (by decide) (by decide),
   (claim_C9_timer_truncation subMsTimer).2.2.2.1 (by decide) (by decide),
   (claim_C9_timer_truncation subMsTimer).2.2.2.2.1 (by decide)⟩

/-- Claim C4: an emission produces at most one point per registry entry,
an unrecognized instrument kind produces none, and a snapshot with one
unrecognized instrument alongside five recognized ones yields exactly
five points — none for the unrecognized entry — with no error returned
or logged for it. -/
theorem claim_C4_unknown_skipped :
    (∀ (name : String) (now : Nat) (m : Metric),
      (pointsForEntry name now m).length ≤ 1) ∧
    (∀ (name : String) (now : Nat),
      pointsForEntry name now Metric.unknown = []) ∧
    ((translateReg "" (fun k => k) regMixed).length = 5) ∧
    ((translateReg "" (fun k => k) regMixed).map Point.measurement =
      ["a.count", "b.gauge", "c.gauge", "d.meter", "e.timer"]) ∧
    (send false (.ok "h") "db" (fun k => k) regMixed (fun _ => none) =
      .wrote ⟨translateReg "" (fun k => k) regMixed, "db"⟩ none) :=
  ⟨fun name now m => by cases m <;> simp [pointsForEntry],
   fun _ _ => rfl, rfl, rfl, rfl⟩

/-- Claim C6: for one identical snapshot, enabling tagHost prefixes every
measurement name with the resolved hostname followed by a dot, while
disabling it adds no prefix: the tagHost batch is exactly the untagged
batch with `h ++ "."` prepended to each measurement. -/
theorem claim_C6_host_tagging (h : String) (hn : Except String String)
    (db : String) (clock : Nat → Nat) (reg : Registry)
    (write : BatchPoints → Option String) :
    (send true (.ok h) db clock reg write =
      .wrote ⟨(translateReg "" clock reg).map
          (fun p => ⟨h ++ "." ++ p.measurement, p.fields, p.time⟩), db⟩
        (write ⟨(translateReg "" clock reg).map
          (fun p => ⟨h ++ "." ++ p.measurement, p.fields, p.time⟩), db⟩)) ∧
    (send false hn db clock reg write =
      .wrote ⟨translateReg "" clock reg, db⟩
        (write ⟨translateReg "" clock reg, db⟩)) := by
  constructor
  · show SendResult.wrote ⟨translateReg (h ++ ".") clock reg, db⟩
        (write ⟨translateReg (h ++ ".") clock reg, db⟩) = _
    rw [translateReg_host (h ++ ".") clock reg]
  · rfl

/-- Claim C10: whenever hostname resolution does not abort the cycle,
`send` performs exactly one write call, even on an empty snapshot: the
batch still carries the configured database name and an empty point
list, and the write's error (or nil) is what `send` returns. -/
theorem claim_C10_always_writes :
    (∀ (hn : Except String String) (db : String) (clock : Nat → Nat)
        (reg : Registry) (write : BatchPoints → Option String),
      send false hn db clock reg write =
        .wrote ⟨translateReg "" clock reg, db⟩
          (write ⟨translateReg "" clock reg, db⟩)) ∧
    (∀ (h db : String) (clock : Nat → Nat) (reg : Registry)
        (write : BatchPoints → Option String),
      send true (.ok h) db clock reg write =
        .wrote ⟨translateReg (h ++ ".") clock reg, db⟩
          (write ⟨translateReg (h ++ ".") clock reg, db⟩)) ∧
    (∀ (hn : Except String String) (db : String) (clock : Nat → Nat)
        (write : BatchPoints → Option String),
      send false hn db clock [] write = .wrote ⟨[], db⟩ (write ⟨[], db⟩)) ∧
    (∀ (h db : String) (clock : Nat → Nat)
        (write : BatchPoints → Option String),
      send true (.ok h) db clock [] write =
        .wrote ⟨[], db⟩ (write ⟨[], db⟩)) :=
  ⟨fun _ _ _ _ _ => rfl, fun _ _ _ _ _ => rfl,
   fun _ _ _ _ => rfl, fun _ _ _ _ => rfl⟩

/-- Claim C5: with tagHost enabled, a hostname-resolution failure aborts
that emission cycle: `send` returns the resolution error without building
a batch or submitting a write (`SendResult.hostErr` carries no batch),
while the loop logs it and keeps processing subsequent events. -/
theorem claim_C5_hostname_failure_aborts_cycle (u : URL)
    (db un pw : String) (cl : Option Client) (eMsg : String)
    (clock : Nat → Nat) (reg : Registry)
    (write : BatchPoints → Option String) (rest : List Event) :
    (send true (.error eMsg) db clock reg write = .hostErr eMsg) ∧
    (runLoop ⟨true, u, db, un, pw⟩ cl
        (.intervalTick (.error eMsg) clock reg write :: rest) =
      ((runLoop ⟨true, u, db, un, pw⟩ cl rest).1,
        .emitted (.hostErr eMsg) :: (runLoop ⟨true, u, db, un, pw⟩ cl rest).2)) ∧
    (((runLoop ⟨true, u, db, un, pw⟩ cl
        (.intervalTick (.error eMsg) clock reg write :: rest)).2).length =
      rest.length + 1) := by
  refine ⟨rfl, rfl, ?_⟩
  simp [runLoop, runStep, runLoop_length]

/-- Claim C1 as stated is false on the code: `now := time.Now()` sits
inside the `reg.Each` closure (influxdb.go line 102), so each point gets
its own capture time. With a clock that advances between the two calls,
a two-counter snapshot yields a batch whose points carry timestamps 0
and 1 — not one shared timestamp. -/
theorem claim_C1_counterexample :
    (send false (.ok "h") "db" (fun k => k) regPair (fun _ => none) =
      .wrote ⟨[⟨"a.count", [("value", FieldValue.i 0)], 0⟩,
               ⟨"b.count", [("value", FieldValue.i 0)], 1⟩], "db"⟩ none) ∧
    ¬ (∀ p ∈ translateReg "" (fun k => k) regPair,
        ∀ q ∈ translateReg "" (fun k => k) regPair, p.time = q.time) :=
  ⟨rfl, by decide⟩

/-- Claim C1, amended: the capture timestamp is taken per metric, inside
the registry iteration — the point produced for the j-th registry entry
carries the j-th `time.Now()` value of that emission cycle, so points of
one batch need not share a timestamp. -/
theorem claim_C1_per_metric_timestamps (host : String) (clock : Nat → Nat)
    (reg : Registry) :
    (translateReg host clock reg).map Point.time =
      (List.range reg.length).filterMap (fun j =>
        match reg[j]? with
        | some e => if emits e.2 then some (clock j) else none
        | none => none) := by
  induction reg generalizing clock with
  | nil => rfl
  | cons e rest ih =>
      obtain ⟨name, m⟩ := e
      simp only [translateReg, List.map_append, pointsForEntry_times,
        List.length_cons, List.range_succ_eq_map, List.filterMap_cons,
        List.filterMap_map, List.getElem?_cons_zero, List.getElem?_cons_succ,
        Function.comp, Nat.succ_eq_add_one, ih]
      cases hm : emits m
      · simp only [hm, List.nil_append, Bool.false_eq_true, if_false]
        refine List.filterMap_congr fun j _ => ?_
        simp [Function.comp, Nat.succ_eq_add_one]
      · simp only [hm, List.singleton_append, if_true]
        exact congrArg _ (List.filterMap_congr fun j _ => by
          simp [Function.comp, Nat.succ_eq_add_one])

/-- Claim C7: a malformed endpoint URL, or a failing initial client
construction, aborts startup: `InfluxDB` returns the corresponding error
outcome and the reporter loop is never entered. -/
theorem claim_C7_startup_errors
    (urlParse : String → Except String URL)
    (newClient : ClientConfig → Except String Client)
    (url db un pw : String) (tagHost : Bool) :
    (∀ e, urlParse url = .error e →
      InfluxDB urlParse newClient url db un pw tagHost = .urlError e ∧
      ∀ cfg cl,
        InfluxDB urlParse newClient url db un pw tagHost ≠ .running cfg cl) ∧
    (∀ u e, urlParse url = .ok u → newClient ⟨u, un, pw⟩ = .error e →
      InfluxDB urlParse newClient url db un pw tagHost = .clientError e ∧
      ∀ cfg cl,
        InfluxDB urlParse newClient url db un pw tagHost ≠ .running cfg cl) := by
  constructor
  · intro e he
    have hr : InfluxDB urlParse newClient url db un pw tagHost = .urlError e := by
      simp [InfluxDB, he]
    exact ⟨hr, fun cfg cl => by simp [hr]⟩
  · intro u e hu hc
    have hr : InfluxDB urlParse newClient url db un pw tagHost =
        .clientError e := by
      simp [InfluxDB, hu, hc]
    exact ⟨hr, fun cfg cl => by simp [hr]⟩

/-- Witness for claim C7: a parser that rejects the endpoint makes
`InfluxDB` return `urlError`; a parser that accepts it combined with a
failing `NewClient` makes it return `clientError`. -/
theorem claim_C7_witness :
    ((fun _ : String => (Except.error "bad" : Except String URL)) "u" =
      .error "bad") ∧
    (InfluxDB (fun _ => .error "bad") (fun _ => .ok ⟨0⟩) "u" "db" "" "" false =
      .urlError "bad") ∧
    ((fun _ : String => (Except.ok (⟨"u"⟩ : URL) : Except String URL)) "u" =
      .ok ⟨"u"⟩) ∧
    ((fun _ : ClientConfig =>
        (Except.error "down" : Except String Client)) ⟨⟨"u"⟩, "", ""⟩ =
      .error "down") ∧
    (InfluxDB (fun _ => .ok ⟨"u"⟩) (fun _ => .error "down") "u" "db" "" "" false =
      .clientError "down") :=
  ⟨rfl,
   ((claim_C7_startup_errors (fun _ => .error "bad") (fun _ => .ok ⟨0⟩)
      "u" "db" "" "" false).1 "bad" rfl).1,
   rfl, rfl,
   ((claim_C7_startup_errors (fun _ => .ok ⟨"u"⟩) (fun _ => .error "down")
      "u" "db" "" "" false).2 ⟨"u"⟩ "down" rfl rfl).1⟩

/-- Claim C8: on a failed ping the loop immediately rebuilds the client
exactly once with the stored configuration; a failed rebuild only
records the error and the loop retries at the next health tick; a
successful ping changes nothing; and the loop handles every event — for
ping outcomes [fail, fail, ok] the handle is rebuilt after each failed
ping and ends usable. -/
theorem claim_C8_supervisor_recovery
    (th : Bool) (u : URL) (db un pw : String) (cl : Option Client)
    (nc1 nc2 nc3 : ClientConfig → Except String Client)
    (c1 c2 : Client) (e : String) :
    (∀ nc, runStep ⟨th, u, db, un, pw⟩ cl (.pingTick true nc) =
      (cl, .pingFine)) ∧
    (nc1 ⟨u, un, pw⟩ = .ok c1 →
      runStep ⟨th, u, db, un, pw⟩ cl (.pingTick false nc1) =
        (some c1, .rebuiltOk ⟨u, un, pw⟩ c1)) ∧
    (nc1 ⟨u, un, pw⟩ = .error e →
      runStep ⟨th, u, db, un, pw⟩ cl (.pingTick false nc1) =
        (none, .rebuiltErr ⟨u, un, pw⟩ e)) ∧
    (nc1 ⟨u, un, pw⟩ = .ok c1 → nc2 ⟨u, un, pw⟩ = .ok c2 →
      runLoop ⟨th, u, db, un, pw⟩ cl
          [.pingTick false nc1, .pingTick false nc2, .pingTick true nc3] =
        (some c2, [.rebuiltOk ⟨u, un, pw⟩ c1, .rebuiltOk ⟨u, un, pw⟩ c2,
          .pingFine])) ∧
    (∀ evs, ((runLoop ⟨th, u, db, un, pw⟩ cl evs).2).length = evs.length) := by
  refine ⟨fun nc => rfl, ?_, ?_, ?_, fun evs => runLoop_length _ _ evs⟩
  · intro h1
    simp [runStep, h1]
  · intro h1
    simp [runStep, h1]
  · intro h1 h2
    simp [runLoop, runStep, h1, h2]

/-- Witness for claim C8: with concrete rebuild outcomes ok ⟨1⟩, ok ⟨2⟩
and ping outcomes [fail, fail, ok], the loop rebuilds after each failed
ping and leaves handle ⟨2⟩; with a failing rebuild the step records the
error and leaves no handle. -/
theorem claim_C8_witness :
    ((fun _ : ClientConfig =>
        (Except.ok (⟨1⟩ : Client) : Except String Client)) ⟨⟨"u"⟩, "", ""⟩ =
      .ok ⟨1⟩) ∧
    ((fun _ : ClientConfig =>
        (Except.ok (⟨2⟩ : Client) : Except String Client)) ⟨⟨"u"⟩, "", ""⟩ =
      .ok ⟨2⟩) ∧
    (runLoop ⟨true, ⟨"u"⟩, "db", "", ""⟩ none
        [.pingTick false (fun _ => .ok ⟨1⟩), .pingTick false (fun _ => .ok ⟨2⟩),
         .pingTick true (fun _ => .error "x")] =
      (some ⟨2⟩, [.rebuiltOk ⟨⟨"u"⟩, "", ""⟩ ⟨1⟩, .rebuiltOk ⟨⟨"u"⟩, "", ""⟩ ⟨2⟩,
        .pingFine])) ∧
    ((fun _ : ClientConfig =>
        (Except.error "down" : Except String Client)) ⟨⟨"u"⟩, "", ""⟩ =
      .error "down") ∧
    (runStep ⟨true, ⟨"u"⟩, "db", "", ""⟩ none
        (.pingTick false (fun _ => .error "down")) =
      (none, .rebuiltErr ⟨⟨"u"⟩, "", ""⟩ "down")) :=
  ⟨rfl, rfl,
   (claim_C8_supervisor_recovery true ⟨"u"⟩ "db" "" "" none
      (fun _ => .ok ⟨1⟩) (fun _ => .ok ⟨2⟩) (fun _ => .error "x")
      ⟨1⟩ ⟨2⟩ "x").2.2.2.1 rfl rfl,
   rfl,
   (claim_C8_supervisor_recovery true ⟨"u"⟩ "db" "" "" none
      (fun _ => .error "down") (fun _ => .ok ⟨2⟩) (fun _ => .error "x")
      ⟨1⟩ ⟨2⟩ "down").2.2.1 rfl⟩
